import Mathlib

/-!
Verification of the Hermes relay microservice (src/microservice/index.js)
of THE-Z-EPHIRCHIK.  The file index.js contains two concatenated program
variants separated by a document marker; the first (lines 1-336) is the
primary service, the second (lines 337-611) an embedded duplicate that
differs in a few handlers.  Both are embedded below where claims touch
them; definitions suffixed `V2` come from the second variant.

External collaborators (the ethers library, the chain, JS `Number`,
clocks) are modelled as an explicit environment `Env` of oracle
functions; a throwing call is an `Except.error` carrying the message.
State that the service mutates (the in-memory eligibility cache, the
persisted cache file, and counters of outbound chain interactions) is an
explicit `ServerState` threaded through the handlers.
-/

/-- Response body shapes produced by the HTTP handlers (JSON objects in
the source, modelled structurally). -/
inductive RespBody where
  | errorMsg (msg : String)
  | errorDetails (msg details : String)
  | healthOk (status : String)
  | blessOk (tokenAddress txHash : String) (blockNumber : Nat)
  | disburseOk (tokenAddress recipient amount txHash : String) (blockNumber : Nat)
  | divineList (tokens : List String)
  deriving DecidableEq, Repr

/-- An HTTP response: status code and body. -/
structure Response where
  status : Nat
  body : RespBody
  deriving DecidableEq, Repr

/-- Environment of external collaborators: ethers helpers, chain calls
(`Except.error` = the call threw), and the JS `Number` conversion
(`none` = NaN). -/
structure Env where
  isAddr : String → Bool
  chainIsDivine : String → Except String Bool
  decOracle : String → Except String Nat
  parseNum : String → Option Rat
  parseUnits : String → Nat → Except String Nat
  blessTx : String → Except String (String × Nat)
  unblessTx : String → Except String (String × Nat)
  disburseTx : String → String → Nat → String → Except String (String × Nat)
  fmt : Nat → Nat → String

/-- Mutable service state: the in-memory divine-tokens cache (a JS
object, modelled as an insertion-ordered association list), the content
of the persisted cache file, and counters of outbound chain
interactions (eligibility view calls, decimals lookups, submitted
state-changing transactions). -/
structure ServerState where
  cache : List (String × Bool)
  persisted : List (String × Bool)
  chainCalls : Nat
  decimalsCalls : Nat
  txSubmissions : Nat
  deriving DecidableEq, Repr

/-- Lookup of a key in the cache object (`divineTokensCache[tokenAddress]`;
`none` models `undefined`). -/
def lookupCache : List (String × Bool) → String → Option Bool
  | [], _ => none
  | (k, v) :: rest, a => if k = a then some v else lookupCache rest a

/-- JS object assignment `obj[k] = v`: overwrite in place if the key
exists, otherwise append (JS string keys keep insertion order). -/
def setKey : List (String × Bool) → String → Bool → List (String × Bool)
  | [], a, v => [(a, v)]
  | (k, w) :: rest, a, v =>
      if k = a then (k, v) :: rest else (k, w) :: setKey rest a v

/-- JS `delete obj[k]`: drop every entry with that key. -/
def delKey : List (String × Bool) → String → List (String × Bool)
  | [], _ => []
  | (k, w) :: rest, a => if k = a then delKey rest a else (k, w) :: delKey rest a

/-- `ethers.isAddress` applied to a possibly-absent request-body field
(`undefined` is never an address). -/
def jsIsAddress (env : Env) : Option String → Bool
  | none => false
  | some a => env.isAddr a

/-- The amount-validation of POST /bless-with-tokens:
`!amount || isNaN(Number(amount)) || Number(amount) <= 0`
(an absent or empty field is falsy; `none` from `parseNum` is NaN). -/
def jsAmountInvalid (env : Env) : Option String → Bool
  | none => true
  | some a =>
    if a = "" then true
    else
      match env.parseNum a with
      | none => true
      | some q => decide (q ≤ 0)

/-- `getTokenDecimals` (index.js lines 147-155): query the token
contract; on failure default to 18.  Either way one decimals lookup was
attempted. -/
def getTokenDecimals (env : Env) (tokenAddress : String) (s : ServerState) :
    Nat × ServerState :=
  let s' := { s with decimalsCalls := s.decimalsCalls + 1 }
  match env.decOracle tokenAddress with
  | .ok d => (d, s')
  | .error _ => (18, s')

/-- `isTokenDivine` (index.js lines 129-142, primary variant): cached
value if present; otherwise one chain view call, and on success the
result is stored in the cache and the cache file is rewritten
(`saveDivineTokensCache`); on failure the function returns `false`. -/
def isTokenDivine (env : Env) (tokenAddress : String) (s : ServerState) :
    Bool × ServerState :=
  match lookupCache s.cache tokenAddress with
  | some v => (v, s)
  | none =>
    let s' := { s with chainCalls := s.chainCalls + 1 }
    match env.chainIsDivine tokenAddress with
    | .ok isDivine =>
        let cache' := setKey s'.cache tokenAddress isDivine
        (isDivine, { s' with cache := cache', persisted := cache' })
    | .error _ => (false, s')

/-- `isTokenDivine` of the second embedded variant (index.js lines
397-410): identical control flow but the cache is never persisted to a
file. -/
def isTokenDivineV2 (env : Env) (tokenAddress : String) (s : ServerState) :
    Bool × ServerState :=
  match lookupCache s.cache tokenAddress with
  | some v => (v, s)
  | none =>
    let s' := { s with chainCalls := s.chainCalls + 1 }
    match env.chainIsDivine tokenAddress with
    | .ok isDivine =>
        (isDivine, { s' with cache := setKey s'.cache tokenAddress isDivine })
    | .error _ => (false, s')

/-- One deposit record as built by the Offering handler and stored in
trdb.json. -/
structure TxRecord where
  timestamp : Nat
  sender : String
  tokenAddress : String
  amount : String
  formattedAmount : String
  txHash : String
  deriving DecidableEq, Repr

/-- `transactionExists` (index.js lines 38-40). -/
def transactionExists (txHash : String) (db : List TxRecord) : Bool :=
  db.any fun tx => tx.txHash = txHash

/-- `appendTransaction` (index.js lines 45-55): re-read the log, append
and persist only if the hash is not already present. -/
def appendTransaction (txData : TxRecord) (db : List TxRecord) : List TxRecord :=
  if !transactionExists txData.txHash db then db ++ [txData] else db

/-- The payload of the outbound POST to the main backend
(`/token-received`). -/
structure NotifyPayload where
  sender : String
  tokenAddress : String
  amount : String
  formattedAmount : String
  txHash : String
  timestamp : String
  deriving DecidableEq, Repr

/-- State touched by the event listener: the transaction log and the
sequence of notifier invocations (each element is one POST attempt to
the backend). -/
structure ListenerState where
  db : List TxRecord
  notifSent : List NotifyPayload
  deriving DecidableEq, Repr

/-- One delivered Offering event together with the ambient clock values
read while handling it (`Date.now()` and `toISOString()`). -/
structure Delivery where
  mortal : String
  tokenAddress : String
  amount : Nat
  txHash : String
  now : Nat
  iso : String
  deriving DecidableEq, Repr

/-- The decimals value the Offering handler sees: `getTokenDecimals`
returns the oracle value or defaults to 18 on failure. -/
def offeringDecimals (env : Env) (d : Delivery) : Nat :=
  match env.decOracle d.tokenAddress with
  | .ok n => n
  | .error _ => 18

/-- The `txData` object built by the Offering handler (index.js lines
185-192). -/
def offeringRecord (env : Env) (d : Delivery) : TxRecord :=
  { timestamp := d.now, sender := d.mortal, tokenAddress := d.tokenAddress,
    amount := toString d.amount,
    formattedAmount := env.fmt d.amount (offeringDecimals env d),
    txHash := d.txHash }

/-- The payload POSTed to the main backend (index.js lines 198-207). -/
def offeringPayload (env : Env) (d : Delivery) : NotifyPayload :=
  { sender := d.mortal, tokenAddress := d.tokenAddress,
    amount := toString d.amount,
    formattedAmount := env.fmt d.amount (offeringDecimals env d),
    txHash := d.txHash, timestamp := d.iso }

/-- The per-event Offering handler (index.js lines 176-213): resolve
decimals (default 18 on failure), format the amount, build the record,
`appendTransaction` it (which skips the write on a duplicate hash), and
then — unconditionally — POST the notification to the main backend. -/
def handleOffering (env : Env) (d : Delivery) (ls : ListenerState) : ListenerState :=
  { db := appendTransaction (offeringRecord env d) ls.db,
    notifSent := ls.notifSent ++ [offeringPayload env d] }

/-- Sequential processing of a list of deliveries. -/
def processAll (env : Env) (ds : List Delivery) (ls : ListenerState) : ListenerState :=
  ds.foldl (fun s d => handleOffering env d s) ls

/-- Request body of POST /bless-with-tokens (fields may be absent). -/
structure DisburseBody where
  tokenAddress : Option String
  recipient : Option String
  amount : Option String
  reference : String
  deriving DecidableEq, Repr

/-- Request body of POST /bless-token and POST /unbless-token. -/
structure TokenBody where
  tokenAddress : Option String
  deriving DecidableEq, Repr

/-- POST /bless-with-tokens handler (index.js lines 217-250): validate
token address, recipient, amount; check eligibility; resolve decimals;
convert the amount; submit `blessWithTokens` and await the receipt. -/
def blessWithTokensHandler (env : Env) (b : DisburseBody) (s : ServerState) :
    Response × ServerState :=
  if jsIsAddress env b.tokenAddress = false then
    (⟨400, .errorMsg "Invalid token address"⟩, s)
  else if jsIsAddress env b.recipient = false then
    (⟨400, .errorMsg "Invalid recipient address"⟩, s)
  else if jsAmountInvalid env b.amount then
    (⟨400, .errorMsg "Invalid amount"⟩, s)
  else
    let tok := b.tokenAddress.getD ""
    let rcpt := b.recipient.getD ""
    let amt := b.amount.getD ""
    let (isDivine, s1) := isTokenDivine env tok s
    if isDivine = false then
      (⟨400, .errorMsg "Token not blessed by Olympus"⟩, s1)
    else
      let (decimals, s2) := getTokenDecimals env tok s1
      match env.parseUnits amt decimals with
      | .error e => (⟨500, .errorDetails "Failed to bestow blessing" e⟩, s2)
      | .ok amountInWei =>
        let s3 := { s2 with txSubmissions := s2.txSubmissions + 1 }
        match env.disburseTx tok rcpt amountInWei b.reference with
        | .error e => (⟨500, .errorDetails "Failed to bestow blessing" e⟩, s3)
        | .ok (hsh, bn) => (⟨200, .disburseOk tok rcpt amt hsh bn⟩, s3)

/-- POST /bless-token handler, primary variant (index.js lines 252-278):
validate, reject if already divine, submit `blessToken`, and on
confirmation set the cache entry to `true` and persist the cache. -/
def blessTokenHandler (env : Env) (b : TokenBody) (s : ServerState) :
    Response × ServerState :=
  if jsIsAddress env b.tokenAddress = false then
    (⟨400, .errorMsg "Invalid token address"⟩, s)
  else
    let tok := b.tokenAddress.getD ""
    let (isDivine, s1) := isTokenDivine env tok s
    if isDivine then
      (⟨400, .errorMsg "Token already blessed"⟩, s1)
    else
      let s2 := { s1 with txSubmissions := s1.txSubmissions + 1 }
      match env.blessTx tok with
      | .error e => (⟨500, .errorDetails "Failed to bless token" e⟩, s2)
      | .ok (hsh, bn) =>
          let cache' := setKey s2.cache tok true
          (⟨200, .blessOk tok hsh bn⟩, { s2 with cache := cache', persisted := cache' })

/-- POST /bless-token handler of the second embedded variant (index.js
lines 507-541): same control flow, but after confirmation the token's
cache entry is deleted (`delete divineTokensCache[tokenAddress]`) and
nothing is persisted. -/
def blessTokenHandlerV2 (env : Env) (b : TokenBody) (s : ServerState) :
    Response × ServerState :=
  if jsIsAddress env b.tokenAddress = false then
    (⟨400, .errorMsg "Invalid token address"⟩, s)
  else
    let tok := b.tokenAddress.getD ""
    let (isDivine, s1) := isTokenDivineV2 env tok s
    if isDivine then
      (⟨400, .errorMsg "Token already blessed"⟩, s1)
    else
      let s2 := { s1 with txSubmissions := s1.txSubmissions + 1 }
      match env.blessTx tok with
      | .error e => (⟨500, .errorDetails "Failed to bless token" e⟩, s2)
      | .ok (hsh, bn) =>
          (⟨200, .blessOk tok hsh bn⟩, { s2 with cache := delKey s2.cache tok })

/-- POST /unbless-token handler (index.js lines 280-306): validate,
reject if not divine, submit `unBlessToken`, then delete the cache entry
and persist. -/
def unblessTokenHandler (env : Env) (b : TokenBody) (s : ServerState) :
    Response × ServerState :=
  if jsIsAddress env b.tokenAddress = false then
    (⟨400, .errorMsg "Invalid token address"⟩, s)
  else
    let tok := b.tokenAddress.getD ""
    let (isDivine, s1) := isTokenDivine env tok s
    if isDivine = false then
      (⟨400, .errorMsg "Token not blessed"⟩, s1)
    else
      let s2 := { s1 with txSubmissions := s1.txSubmissions + 1 }
      match env.unblessTx tok with
      | .error e => (⟨500, .errorDetails "Failed to unbless token" e⟩, s2)
      | .ok (hsh, bn) =>
          let cache' := delKey s2.cache tok
          (⟨200, .blessOk tok hsh bn⟩, { s2 with cache := cache', persisted := cache' })

/-- `Object.keys(divineTokensCache).filter(token => divineTokensCache[token])`
(index.js line 310). -/
def divineTokensList (s : ServerState) : List String :=
  (s.cache.map Prod.fst).filter fun t => (lookupCache s.cache t).getD false

/-- GET /divine-tokens handler (index.js lines 308-319). -/
def divineTokensHandler (s : ServerState) : Response × ServerState :=
  (⟨200, .divineList (divineTokensList s)⟩, s)

/-- GET /health handler (index.js lines 321-323). -/
def healthHandler (s : ServerState) : Response × ServerState :=
  (⟨200, .healthOk "Olympus is in harmony"⟩, s)

/-- `validateApiKey` middleware (index.js lines 82-88): the request
passes iff the x-api-key header is present, truthy, and equal to the
configured key. -/
def authOk (apiKey : String) (header : Option String) : Bool :=
  match header with
  | none => false
  | some k => !(k = "") && k = apiKey

/-- The fixed 401 body sent by `validateApiKey`. -/
def unauthorizedResp : Response := ⟨401, .errorMsg "Unauthorized: Invalid API key"⟩

/-- `const API_KEY = process.env.API_KEY || 'default-secure-api-key'`
(index.js line 64): an unset or empty environment variable falls back to
the hard-coded literal. -/
def resolveApiKey : Option String → String
  | none => "default-secure-api-key"
  | some k => if k = "" then "default-secure-api-key" else k

/-- An inbound HTTP request to one of the service's routes, carrying the
x-api-key header value (if any) and the parsed body. -/
inductive ApiRequest where
  | blessWithTokens (header : Option String) (body : DisburseBody)
  | blessToken (header : Option String) (body : TokenBody)
  | unblessToken (header : Option String) (body : TokenBody)
  | divineTokens (header : Option String)
  | health (header : Option String)

/-- The express routing of the primary variant: every route except
GET /health runs `validateApiKey` first and only reaches its handler on
success. -/
def handleRequest (env : Env) (apiKey : String) (req : ApiRequest) (s : ServerState) :
    Response × ServerState :=
  match req with
  | .blessWithTokens hdr b =>
      if authOk apiKey hdr then blessWithTokensHandler env b s else (unauthorizedResp, s)
  | .blessToken hdr b =>
      if authOk apiKey hdr then blessTokenHandler env b s else (unauthorizedResp, s)
  | .unblessToken hdr b =>
      if authOk apiKey hdr then unblessTokenHandler env b s else (unauthorizedResp, s)
  | .divineTokens hdr =>
      if authOk apiKey hdr then divineTokensHandler s else (unauthorizedResp, s)
  | .health _ => healthHandler s

/-! ### Basic lemmas about the cache object and the transaction log -/

theorem lookupCache_setKey_self (c : List (String × Bool)) (a : String) (v : Bool) :
    lookupCache (setKey c a v) a = some v := by
  induction c with
  | nil => simp [setKey, lookupCache]
  | cons kv rest ih =>
    obtain ⟨k, w⟩ := kv
    by_cases h : k = a <;> simp [setKey, lookupCache, h, ih]

theorem lookupCache_mem_keys {c : List (String × Bool)} {a : String} {b : Bool}
    (h : lookupCache c a = some b) : a ∈ c.map Prod.fst := by
  induction c with
  | nil => simp [lookupCache] at h
  | cons kv rest ih =>
    obtain ⟨k, w⟩ := kv
    by_cases hk : k = a
    · simp [hk]
    · simp only [lookupCache, if_neg hk] at h
      simpa using Or.inr (ih h)

theorem mem_divineTokensList_iff (s : ServerState) (a : String) :
    a ∈ divineTokensList s ↔ lookupCache s.cache a = some true := by
  simp only [divineTokensList, List.mem_filter]
  constructor
  · rintro ⟨-, hp⟩
    cases hlk : lookupCache s.cache a with
    | none => rw [hlk] at hp; simp at hp
    | some b => rw [hlk] at hp; simp at hp; rw [hp]
  · intro hlk
    exact ⟨lookupCache_mem_keys hlk, by simp [hlk]⟩

theorem transactionExists_iff (h : String) (db : List TxRecord) :
    transactionExists h db = true ↔ h ∈ db.map TxRecord.txHash := by
  simp only [transactionExists, List.any_eq_true, decide_eq_true_eq, List.mem_map]

theorem transactionExists_append (h : String) (db1 db2 : List TxRecord) :
    transactionExists h (db1 ++ db2)
      = (transactionExists h db1 || transactionExists h db2) := by
  simp [transactionExists]

theorem appendTransaction_of_exists {t : TxRecord} {db : List TxRecord}
    (h : transactionExists t.txHash db = true) : appendTransaction t db = db := by
  simp [appendTransaction, h]

theorem appendTransaction_of_not_exists {t : TxRecord} {db : List TxRecord}
    (h : transactionExists t.txHash db = false) : appendTransaction t db = db ++ [t] := by
  simp [appendTransaction, h]

theorem appendTransaction_nodup (t : TxRecord) (db : List TxRecord)
    (h : (db.map TxRecord.txHash).Nodup) :
    ((appendTransaction t db).map TxRecord.txHash).Nodup := by
  by_cases hex : transactionExists t.txHash db = true
  · rw [appendTransaction_of_exists hex]; exact h
  · rw [appendTransaction_of_not_exists (by simpa using hex)]
    rw [List.map_append, List.nodup_append]
    refine ⟨h, List.nodup_singleton _, ?_⟩
    intro a ha hb
    simp only [List.map_cons, List.map_nil, List.mem_singleton] at hb
    subst hb
    have hmem : t.txHash ∉ db.map TxRecord.txHash := by
      simpa [transactionExists_iff] using hex
    exact hmem ha

theorem processAll_cons (env : Env) (d : Delivery) (ds : List Delivery)
    (ls : ListenerState) :
    processAll env (d :: ds) ls = processAll env ds (handleOffering env d ls) := rfl

theorem processAll_db_map (env : Env) (ds : List Delivery) (ls : ListenerState)
    (hnd : (ds.map Delivery.txHash).Nodup)
    (hdisj : ∀ d ∈ ds, transactionExists d.txHash ls.db = false) :
    (processAll env ds ls).db.map TxRecord.txHash
      = ls.db.map TxRecord.txHash ++ ds.map Delivery.txHash := by
  induction ds generalizing ls with
  | nil => simp [processAll]
  | cons d ds ih =>
    have hd : transactionExists d.txHash ls.db = false := hdisj d (by simp)
    have hrec : transactionExists (offeringRecord env d).txHash ls.db = false := hd
    have hdb : (handleOffering env d ls).db = ls.db ++ [offeringRecord env d] := by
      simp [handleOffering, appendTransaction_of_not_exists hrec]
    have hnd0 : d.txHash ∉ ds.map Delivery.txHash ∧ (ds.map Delivery.txHash).Nodup :=
      List.nodup_cons.mp hnd
    have hdisj2 : ∀ d2 ∈ ds, transactionExists d2.txHash (handleOffering env d ls).db = false := by
      intro d2 hd2
      rw [hdb, transactionExists_append, Bool.or_eq_false_iff]
      refine ⟨hdisj d2 (by simp [hd2]), ?_⟩
      have hne : d2.txHash ≠ d.txHash := by
        intro heq
        exact hnd0.1 (heq ▸ List.mem_map_of_mem Delivery.txHash hd2)
      simp [transactionExists, offeringRecord, hne.symm]
    rw [processAll_cons, ih (handleOffering env d ls) hnd0.2 hdisj2, hdb]
    simp [offeringRecord]

theorem isTokenDivine_cached {env : Env} {a : String} {s : ServerState} {v : Bool}
    (h : lookupCache s.cache a = some v) : isTokenDivine env a s = (v, s) := by
  simp [isTokenDivine, h]

/-! ### Concrete environments and states used to instantiate theorems -/

/-- A concrete environment: a chain that
answers `true` for most tokens, `false` for `0xFALSE`, and throws for
`0xDEAD`; a JS Number conversion defined on `0` and `-5`. -/
def envW : Env :=
  { isAddr := fun a => !(a = "not-an-address"),
    chainIsDivine := fun a =>
      if a = "0xDEAD" then .error "rpc down"
      else if a = "0xFALSE" then .ok false
      else .ok true,
    decOracle := fun _ => .ok 18,
    parseNum := fun a =>
      if a = "0" then some 0 else if a = "-5" then some (-5) else none,
    parseUnits := fun _ _ => .error "unused",
    blessTx := fun _ => .ok ("0xreceipt", 7),
    unblessTx := fun _ => .ok ("0xreceipt2", 8),
    disburseTx := fun _ _ _ _ => .error "unused",
    fmt := fun _ _ => "1.0" }

/-- The empty server state (fresh process, empty cache files). -/
def s0 : ServerState := ⟨[], [], 0, 0, 0⟩

/-- A concrete deposit event delivery. -/
def dW : Delivery :=
  { mortal := "0xBBB", tokenAddress := "0xAAA", amount := 5,
    txHash := "0xhash1", now := 11, iso := "t11" }

/-- A second concrete delivery with a distinct transaction hash. -/
def dW2 : Delivery :=
  { mortal := "0xBBB", tokenAddress := "0xAAA", amount := 9,
    txHash := "0xhash2", now := 12, iso := "t12" }

/-! ### C1 -/

/-- C1 counterexample: redelivering the same Offering (txHash 0xhash1)
leaves the Transaction Log unchanged, but the Backend Notifier is
invoked a second time for that identifier (two recorded notifier
invocations), refuting the claim that redelivery is a complete no-op
with the notifier not invoked again. -/
theorem c1_counterexample :
    (handleOffering envW dW (handleOffering envW dW ⟨[], []⟩)).db
      = (handleOffering envW dW ⟨[], []⟩).db
    ∧ (handleOffering envW dW ⟨[], []⟩).notifSent.length = 1
    ∧ (handleOffering envW dW (handleOffering envW dW ⟨[], []⟩)).notifSent.length = 2 := by
  refine ⟨by decide, by decide, by decide⟩

/-- C1 (amended): processing a deposit event whose transaction
identifier is already in the Transaction Log leaves the log unchanged in
size and content (the write is skipped inside appendTransaction), but
the Backend Notifier is still invoked once more with the rebuilt
payload — the dedup check guards only the log write, not the
notification. -/
theorem c1_redelivery_log_noop_but_notified (env : Env) (d : Delivery) (ls : ListenerState)
    (h : transactionExists d.txHash ls.db = true) :
    (handleOffering env d ls).db = ls.db
    ∧ (handleOffering env d ls).notifSent = ls.notifSent ++ [offeringPayload env d] := by
  have hrec : transactionExists (offeringRecord env d).txHash ls.db = true := h
  exact ⟨by simp [handleOffering, appendTransaction_of_exists hrec], rfl⟩

/-- C1 witness: the amended theorem applied at a concrete redelivered
event. -/
theorem c1_witness :
    transactionExists dW.txHash (handleOffering envW dW ⟨[], []⟩).db = true
    ∧ (handleOffering envW dW (handleOffering envW dW ⟨[], []⟩)).db
        = (handleOffering envW dW ⟨[], []⟩).db :=
  ⟨by decide,
   (c1_redelivery_log_noop_but_notified envW dW (handleOffering envW dW ⟨[], []⟩)
      (by decide)).1⟩

/-! ### C2 -/

/-- C2: processing any sequence of deposit events with pairwise-distinct
transaction identifiers from an empty log yields a log with exactly one
record per identifier, in arrival order (the log's hash sequence equals
the event hash sequence); and appendTransaction preserves the invariant
that no two log records share a transaction identifier. -/
theorem c2_log_one_record_per_id_in_order (env : Env) (ds : List Delivery)
    (hnd : (ds.map Delivery.txHash).Nodup) :
    (processAll env ds ⟨[], []⟩).db.map TxRecord.txHash = ds.map Delivery.txHash
    ∧ ∀ (t : TxRecord) (db : List TxRecord), (db.map TxRecord.txHash).Nodup →
        ((appendTransaction t db).map TxRecord.txHash).Nodup := by
  refine ⟨?_, fun t db h => appendTransaction_nodup t db h⟩
  have hall : ∀ d ∈ ds, transactionExists d.txHash (⟨[], []⟩ : ListenerState).db = false := by
    intro d _; rfl
  simpa using processAll_db_map env ds ⟨[], []⟩ hnd hall

/-- C2 witness: the theorem applied to the two-event sequence
[0xhash1, 0xhash2]. -/
theorem c2_witness :
    ((([dW, dW2].map Delivery.txHash).Nodup)
    ∧ (processAll envW [dW, dW2] ⟨[], []⟩).db.map TxRecord.txHash
        = [dW, dW2].map Delivery.txHash) :=
  ⟨by decide, (c2_log_one_record_per_id_in_order envW [dW, dW2] (by decide)).1⟩

/-! ### C3 -/

/-- C3: isTokenDivine is read-through cached.  For a token not present
in the cache, the call performs exactly one chain view call (chainCalls
rises by one); when that call succeeds with value b, the result is b,
the cache now holds b for that token, the persisted file equals the
cache, and an immediately repeated call returns b with the state — in
particular the chain-call counter — unchanged; and any call on any
state whose cache already holds the token returns the cached value with
no state change (zero chain calls). -/
theorem c3_read_through_cache (env : Env) (a : String) (s : ServerState)
    (hmiss : lookupCache s.cache a = none) :
    (isTokenDivine env a s).2.chainCalls = s.chainCalls + 1
    ∧ (∀ b : Bool, env.chainIsDivine a = .ok b →
        (isTokenDivine env a s).1 = b
        ∧ lookupCache (isTokenDivine env a s).2.cache a = some b
        ∧ (isTokenDivine env a s).2.persisted = (isTokenDivine env a s).2.cache
        ∧ isTokenDivine env a (isTokenDivine env a s).2 = (b, (isTokenDivine env a s).2))
    ∧ (∀ (v : Bool) (t : ServerState), lookupCache t.cache a = some v →
        isTokenDivine env a t = (v, t)) := by
  refine ⟨?_, ?_, fun v t h => isTokenDivine_cached h⟩
  · cases hc : env.chainIsDivine a <;> simp [isTokenDivine, hmiss, hc]
  · intro b hc
    have h1 : isTokenDivine env a s
        = (b, { s with
                chainCalls := s.chainCalls + 1
                cache := setKey s.cache a b
                persisted := setKey s.cache a b }) := by
      simp [isTokenDivine, hmiss, hc]
    refine h1 ▸ ⟨rfl, lookupCache_setKey_self .., rfl, ?_⟩
    exact isTokenDivine_cached (lookupCache_setKey_self ..)

/-- C3 witness: a fresh token 0xAAA on an empty cache with a succeeding
chain call. -/
theorem c3_witness :
    lookupCache s0.cache "0xAAA" = none
    ∧ envW.chainIsDivine "0xAAA" = .ok true
    ∧ (isTokenDivine envW "0xAAA" s0).2.chainCalls = s0.chainCalls + 1
    ∧ isTokenDivine envW "0xAAA" (isTokenDivine envW "0xAAA" s0).2
        = (true, (isTokenDivine envW "0xAAA" s0).2) := by
  have h := c3_read_through_cache envW "0xAAA" s0 (by decide)
  exact ⟨by decide, by rfl, h.1, (h.2.1 true (by rfl)).2.2.2⟩

/-! ### C6 -/

/-- C6: when the chain view call inside isTokenDivine throws (the token
is not in the cache, so the call is actually made, and the oracle
returns an error), the function returns false to its caller; the
embedding is a total function, so no exception propagates, and an
uncertain token is never reported eligible. -/
theorem c6_fail_closed (env : Env) (a : String) (s : ServerState) (e : String)
    (hmiss : lookupCache s.cache a = none)
    (herr : env.chainIsDivine a = .error e) :
    (isTokenDivine env a s).1 = false := by
  simp [isTokenDivine, hmiss, herr]

/-- C6 witness: the failing token 0xDEAD on an empty cache. -/
theorem c6_witness :
    lookupCache s0.cache "0xDEAD" = none
    ∧ envW.chainIsDivine "0xDEAD" = .error "rpc down"
    ∧ (isTokenDivine envW "0xDEAD" s0).1 = false :=
  ⟨by decide, by rfl, c6_fail_closed envW "0xDEAD" s0 "rpc down" (by decide) (by rfl)⟩

/-! ### C9 -/

/-- C9: a failing chain view call inside isTokenDivine does not cache
its false result — the in-memory cache and the persisted file are left
exactly as they were — and therefore a later call for the same token
performs the chain view call again (the counter rises again on the
second call). -/
theorem c9_failure_not_cached (env : Env) (a : String) (s : ServerState) (e : String)
    (hmiss : lookupCache s.cache a = none)
    (herr : env.chainIsDivine a = .error e) :
    (isTokenDivine env a s).2.cache = s.cache
    ∧ (isTokenDivine env a s).2.persisted = s.persisted
    ∧ (isTokenDivine env a (isTokenDivine env a s).2).2.chainCalls
        = (isTokenDivine env a s).2.chainCalls + 1 := by
  have h1 : isTokenDivine env a s = (false, { s with chainCalls := s.chainCalls + 1 }) := by
    simp [isTokenDivine, hmiss, herr]
  rw [h1]
  exact ⟨rfl, rfl, by simp [isTokenDivine, hmiss, herr]⟩

/-- C9 witness: the failing token 0xDEAD; the failure leaves the cache
and file untouched and the retry hits the chain again. -/
theorem c9_witness :
    lookupCache s0.cache "0xDEAD" = none
    ∧ (isTokenDivine envW "0xDEAD" s0).2.cache = s0.cache
    ∧ (isTokenDivine envW "0xDEAD" (isTokenDivine envW "0xDEAD" s0).2).2.chainCalls
        = (isTokenDivine envW "0xDEAD" s0).2.chainCalls + 1 := by
  have h := c9_failure_not_cached envW "0xDEAD" s0 "rpc down" (by decide) (by rfl)
  exact ⟨by decide, h.1, h.2.2⟩

/-! ### C10 -/

/-- C10: negative verdicts are cached — a successful chain call
returning false stores and persists false, the repeated call serves
false from the cache with no state change (zero chain calls), the token
is then a cache key but absent from the GET /divine-tokens list; and in
general the /divine-tokens handler returns status 200 with exactly
those keys whose cached value is true. -/
theorem c10_negative_caching_and_listing (env : Env) (a : String) (s : ServerState)
    (hmiss : lookupCache s.cache a = none)
    (hfalse : env.chainIsDivine a = .ok false) :
    (isTokenDivine env a s).1 = false
    ∧ lookupCache (isTokenDivine env a s).2.cache a = some false
    ∧ (isTokenDivine env a s).2.persisted = (isTokenDivine env a s).2.cache
    ∧ isTokenDivine env a (isTokenDivine env a s).2 = (false, (isTokenDivine env a s).2)
    ∧ a ∉ divineTokensList (isTokenDivine env a s).2
    ∧ (∀ t : ServerState,
        divineTokensHandler t = (⟨200, .divineList (divineTokensList t)⟩, t))
    ∧ (∀ (t : ServerState) (x : String),
        x ∈ divineTokensList t ↔ lookupCache t.cache x = some true) := by
  have h1 : isTokenDivine env a s
      = (false, { s with
              chainCalls := s.chainCalls + 1
              cache := setKey s.cache a false
              persisted := setKey s.cache a false }) := by
    simp [isTokenDivine, hmiss, hfalse]
  have hlk : lookupCache (isTokenDivine env a s).2.cache a = some false := by
    rw [h1]; exact lookupCache_setKey_self ..
  refine ⟨by rw [h1], hlk, by rw [h1], isTokenDivine_cached hlk, ?_,
    fun t => rfl, fun t x => mem_divineTokensList_iff t x⟩
  intro hmem
  have := (mem_divineTokensList_iff _ a).mp hmem
  rw [hlk] at this
  exact Bool.false_ne_true (Option.some_injective _ this)

/-- C10 witness: the token 0xFALSE whose chain verdict is false, on the
empty cache. -/
theorem c10_witness :
    lookupCache s0.cache "0xFALSE" = none
    ∧ envW.chainIsDivine "0xFALSE" = .ok false
    ∧ lookupCache (isTokenDivine envW "0xFALSE" s0).2.cache "0xFALSE" = some false
    ∧ "0xFALSE" ∉ divineTokensList (isTokenDivine envW "0xFALSE" s0).2 := by
  have h := c10_negative_caching_and_listing envW "0xFALSE" s0 (by decide) (by rfl)
  exact ⟨by decide, by rfl, h.2.1, h.2.2.2.2.1⟩

/-! ### C4 -/

/-- C4 counterexample: in the second embedded /bless-token variant,
blessing the previously-ineligible token 0xFALSE succeeds (200), yet
the immediately following eligibility check performs another chain view
call (the counter rises from 1 to 2): the handler deleted the token's
cache entry instead of setting it eligible, so the claim fails for that
cited handler. -/
theorem c4_counterexample :
    (blessTokenHandlerV2 envW ⟨some "0xFALSE"⟩ s0).1.status = 200
    ∧ (blessTokenHandlerV2 envW ⟨some "0xFALSE"⟩ s0).2.chainCalls = 1
    ∧ (isTokenDivineV2 envW "0xFALSE"
        (blessTokenHandlerV2 envW ⟨some "0xFALSE"⟩ s0).2).2.chainCalls = 2 := by
  refine ⟨by decide, by decide, by decide⟩

/-- C4 (amended): for the primary /bless-token handler the claim holds
verbatim — a successful bless of a previously-ineligible well-formed
token sets its cache entry to true and persists it, so the immediately
following isTokenDivine returns true with no state change (hence no
chain call), and blessing an already-eligible token is answered 400
"Token already blessed" rather than silently succeeding; the second
embedded variant instead deletes the cache entry on success, so there
the follow-up check goes back to the chain. -/
theorem c4_bless_token_primary (env : Env) (b : TokenBody) (tok hsh : String)
    (bn : Nat) (s : ServerState)
    (htok : b.tokenAddress = some tok)
    (haddr : env.isAddr tok = true)
    (htx : env.blessTx tok = .ok (hsh, bn)) :
    ((isTokenDivine env tok s).1 = false →
        (blessTokenHandler env b s).1.status = 200
        ∧ lookupCache (blessTokenHandler env b s).2.cache tok = some true
        ∧ (blessTokenHandler env b s).2.persisted = (blessTokenHandler env b s).2.cache
        ∧ isTokenDivine env tok (blessTokenHandler env b s).2
            = (true, (blessTokenHandler env b s).2))
    ∧ ((isTokenDivine env tok s).1 = true →
        blessTokenHandler env b s
          = (⟨400, .errorMsg "Token already blessed"⟩, (isTokenDivine env tok s).2)) := by
  rcases hP : isTokenDivine env tok s with ⟨v, s1⟩
  simp only [hP]
  constructor
  · intro hv
    subst hv
    have hres : blessTokenHandler env b s
        = (⟨200, .blessOk tok hsh bn⟩,
           { s1 with
             txSubmissions := s1.txSubmissions + 1
             cache := setKey s1.cache tok true
             persisted := setKey s1.cache tok true }) := by
      simp [blessTokenHandler, htok, jsIsAddress, haddr, hP, htx]
    rw [hres]
    exact ⟨rfl, lookupCache_setKey_self .., rfl,
      isTokenDivine_cached (lookupCache_setKey_self ..)⟩
  · intro hv
    subst hv
    simp [blessTokenHandler, htok, jsIsAddress, haddr, hP]

/-- C4 witness: the amended theorem at the concrete previously-
ineligible token 0xFALSE on the empty cache. -/
theorem c4_witness :
    (isTokenDivine envW "0xFALSE" s0).1 = false
    ∧ (blessTokenHandler envW ⟨some "0xFALSE"⟩ s0).1.status = 200
    ∧ isTokenDivine envW "0xFALSE" (blessTokenHandler envW ⟨some "0xFALSE"⟩ s0).2
        = (true, (blessTokenHandler envW ⟨some "0xFALSE"⟩ s0).2) := by
  have h := c4_bless_token_primary envW ⟨some "0xFALSE"⟩ "0xFALSE" "0xreceipt" 7 s0
    rfl (by decide) (by rfl)
  have hv : (isTokenDivine envW "0xFALSE" s0).1 = false := by decide
  exact ⟨hv, (h.1 hv).1, (h.1 hv).2.2.2⟩

/-! ### C5 -/

/-- C5: POST /bless-with-tokens rejects with 400 and with the server
state unchanged (so in particular zero eligibility view calls, zero
decimals lookups and zero transaction submissions, since the state
carries those counters) every request whose tokenAddress or recipient
is not a well-formed address and every request whose amount is absent,
empty, NaN or not strictly positive. -/
theorem c5_disburse_validation (env : Env) (b : DisburseBody) (s : ServerState)
    (h : jsIsAddress env b.tokenAddress = false ∨ jsIsAddress env b.recipient = false
        ∨ jsAmountInvalid env b.amount = true) :
    (blessWithTokensHandler env b s).1.status = 400
    ∧ (blessWithTokensHandler env b s).2 = s := by
  rcases h with h | h | h
  · simp [blessWithTokensHandler, h]
  · by_cases h1 : jsIsAddress env b.tokenAddress = false <;>
      simp [blessWithTokensHandler, h, h1]
  · by_cases h1 : jsIsAddress env b.tokenAddress = false <;>
      by_cases h2 : jsIsAddress env b.recipient = false <;>
        simp [blessWithTokensHandler, h, h1, h2]

/-- C5 witness: the theorem at the recipient "not-an-address", at
amount "0" and at amount "-5" (valid addresses otherwise), each
rejected with 400 and no state change. -/
theorem c5_witness :
    (jsIsAddress envW (some "not-an-address") = false
      ∧ (blessWithTokensHandler envW ⟨some "0xAAA", some "not-an-address", some "7", "r"⟩ s0).1.status = 400
      ∧ (blessWithTokensHandler envW ⟨some "0xAAA", some "not-an-address", some "7", "r"⟩ s0).2 = s0)
    ∧ (jsAmountInvalid envW (some "0") = true
      ∧ (blessWithTokensHandler envW ⟨some "0xAAA", some "0xBBB", some "0", "r"⟩ s0).1.status = 400
      ∧ (blessWithTokensHandler envW ⟨some "0xAAA", some "0xBBB", some "0", "r"⟩ s0).2 = s0)
    ∧ (jsAmountInvalid envW (some "-5") = true
      ∧ (blessWithTokensHandler envW ⟨some "0xAAA", some "0xBBB", some "-5", "r"⟩ s0).1.status = 400
      ∧ (blessWithTokensHandler envW ⟨some "0xAAA", some "0xBBB", some "-5", "r"⟩ s0).2 = s0) := by
  have h1 := c5_disburse_validation envW ⟨some "0xAAA", some "not-an-address", some "7", "r"⟩ s0
    (Or.inr (Or.inl (by decide)))
  have h2 := c5_disburse_validation envW ⟨some "0xAAA", some "0xBBB", some "0", "r"⟩ s0
    (Or.inr (Or.inr (by decide)))
  have h3 := c5_disburse_validation envW ⟨some "0xAAA", some "0xBBB", some "-5", "r"⟩ s0
    (Or.inr (Or.inr (by decide)))
  exact ⟨⟨by decide, h1.1, h1.2⟩, ⟨by decide, h2.1, h2.2⟩, ⟨by decide, h3.1, h3.2⟩⟩

/-! ### C7 -/

/-- C7: every request to one of the four authenticated routes whose
x-api-key header is absent, empty, or different from the configured
secret is answered with the fixed 401 unauthorized response and the
server state is returned unchanged (the route handler never runs, so no
chain call and no cache or log mutation); GET /health needs no header
and returns the fixed OK payload. -/
theorem c7_auth_required (env : Env) (apiKey : String) (hdr : Option String)
    (s : ServerState) (h : authOk apiKey hdr = false) :
    unauthorizedResp = ⟨401, .errorMsg "Unauthorized: Invalid API key"⟩
    ∧ (∀ b, handleRequest env apiKey (.blessWithTokens hdr b) s = (unauthorizedResp, s))
    ∧ (∀ b, handleRequest env apiKey (.blessToken hdr b) s = (unauthorizedResp, s))
    ∧ (∀ b, handleRequest env apiKey (.unblessToken hdr b) s = (unauthorizedResp, s))
    ∧ handleRequest env apiKey (.divineTokens hdr) s = (unauthorizedResp, s)
    ∧ (∀ hdr2, handleRequest env apiKey (.health hdr2) s
        = (⟨200, .healthOk "Olympus is in harmony"⟩, s)) := by
  refine ⟨rfl, fun b => ?_, fun b => ?_, fun b => ?_, ?_, fun hdr2 => ?_⟩ <;>
    simp [handleRequest, h, healthHandler]

/-- C7 witness: a wrong key against the configured secret "sacred" is
rejected on GET /divine-tokens; GET /health answers without any key. -/
theorem c7_witness :
    authOk "sacred" (some "wrong") = false
    ∧ handleRequest envW "sacred" (.divineTokens (some "wrong")) s0 = (unauthorizedResp, s0)
    ∧ handleRequest envW "sacred" (.health none) s0
        = (⟨200, .healthOk "Olympus is in harmony"⟩, s0) := by
  have h := c7_auth_required envW "sacred" (some "wrong") s0 (by decide)
  exact ⟨by decide, h.2.2.2.2.1, h.2.2.2.2.2 none⟩

/-! ### C8 -/

/-- C8: with the API_KEY environment variable unset, the configured key
resolves to the hard-coded literal, so a request presenting
"default-secure-api-key" in x-api-key passes the auth check, and for
example GET /divine-tokens then answers 200 on any state — the service
does not reject all requests. -/
theorem c8_default_api_key_passes :
    authOk (resolveApiKey none) (some "default-secure-api-key") = true
    ∧ ∀ (env : Env) (s : ServerState),
        (∀ b, handleRequest env (resolveApiKey none)
            (.blessWithTokens (some "default-secure-api-key") b) s
          = blessWithTokensHandler env b s)
        ∧ (∀ b, handleRequest env (resolveApiKey none)
            (.blessToken (some "default-secure-api-key") b) s
          = blessTokenHandler env b s)
        ∧ (∀ b, handleRequest env (resolveApiKey none)
            (.unblessToken (some "default-secure-api-key") b) s
          = unblessTokenHandler env b s)
        ∧ (handleRequest env (resolveApiKey none)
            (.divineTokens (some "default-secure-api-key")) s).1.status = 200 := by
  have ha : authOk (resolveApiKey none) (some "default-secure-api-key") = true := by decide
  refine ⟨ha, fun env s => ⟨fun b => ?_, fun b => ?_, fun b => ?_, ?_⟩⟩ <;>
    simp [handleRequest, ha, divineTokensHandler]
